import Mathlib

/-!
Formalisation of the record-lookup / aggregation core of the `teste`
repository: the server actions in `src/app/actions.ts` and the cache
failover loaders in `src/app/api/processo/route.ts` and in the unnamed
route variant (`src/unnamed/part_001`, first variant).

Modelling conventions:
* JavaScript numbers are modelled as exact rationals (`ℚ`).
* A raw JSON field value (the `dias` field may arrive as a number, a
  string, `null`, or be missing) is modelled by `JVal`.
* A JavaScript string is modelled by `JStr`: its text together with the
  finite value `parseFloat` extracts from it (`none` when `parseFloat`
  yields `NaN` or an infinity, i.e. a non-finite result).
* File contents are modelled by `Content`, which records how `JSON.parse`
  behaves on the bytes; byte-for-byte equality of file contents is
  equality of `Content` values.
* Thrown exceptions are modelled by `Except.error`; `null`/`undefined`
  returns by `Option`.
-/

/-- A JavaScript string value: its raw text together with the result that
`parseFloat` produces on it (`none` when that result is `NaN` or an
infinity, i.e. not a finite number). -/
structure JStr where
  raw : String
  pf : Option ℚ
deriving DecidableEq

/-- A raw JSON field value as it can appear in the `dias` position of a
record: a number, a string, `null`, or missing (`undefined`). -/
inductive JVal where
  | num (q : ℚ)
  | str (s : JStr)
  | null
  | undef
deriving DecidableEq

/-- One record of the snapshot (the `Process` interface in `actions.ts`);
the `dias` field (and the queue-position field, written `posição` in the
source, here `posicao`) are kept as raw JSON values because the externally
produced data may carry strings, `null`, or omit them. -/
structure Process where
  processo : String
  unidade : String
  tipo_tabela : String
  dias : JVal
  posicao : JVal
deriving DecidableEq

/-- `parseFloat(value as string)` applied to a raw `dias` value, combined
with finiteness: `some q` when the coercion yields the finite number `q`,
`none` when it yields `NaN` or an infinity (`String(null) = "null"` and
`String(undefined) = "undefined"` both parse to `NaN`). -/
def parseFloatJ : JVal → Option ℚ
  | .num q => some q
  | .str s => s.pf
  | .null => none
  | .undef => none

/-- The validity test of `getTabelasSummaryByUnidade` (`actions.ts`):
`Number.isFinite(diasAsNumber) && diasAsNumber > 0`. -/
def validDias (p : Process) : Bool :=
  match parseFloatJ p.dias with
  | some q => decide (0 < q)
  | none => false

/-- `diasValue === null || diasValue === undefined` from
`getInvalidProcessesDetails` (`actions.ts`). -/
def isNullOrUndefined : JVal → Bool
  | .null => true
  | .undef => true
  | _ => false

/-- `getProcessByNumber` (`actions.ts`): first record whose `processo`
field equals the queried number (`Array.prototype.find` with `===`). -/
def getProcessByNumber (l : List Process) (numeroDoProcesso : String) :
    Option Process :=
  l.find? (fun p => p.processo == numeroDoProcesso)

/-- `Number.prototype.toFixed(2)` followed by `parseFloat`, on a finite
number: round to an integer count of hundredths, ties picking the larger
candidate (ECMA-262 `toFixed`), and read the decimal string back. -/
def jsToFixed2 (q : ℚ) : ℚ :=
  (⌊q * 100 + 1 / 2⌋ : ℚ) / 100

/-- One entry of the per-category summary (`TabelaSummary` in
`actions.ts`); `mediaDias` is an integer because the source ceils it. -/
structure TabelaSummary where
  tipo_tabela : String
  quantidadeProcessos : ℕ
  mediaDias : ℤ
deriving DecidableEq

/-- The distinct `tipo_tabela` keys of a record list in first-occurrence
order: the key set of the insertion-ordered `Map` that
`getTabelasSummaryByUnidade` builds with `forEach`. -/
def keysFirstOccur (l : List Process) : List String :=
  l.foldl (fun ks p => if p.tipo_tabela ∈ ks then ks else ks ++ [p.tipo_tabela]) []

/-- Total of the coerced `dias` values of a record list, as accumulated in
the `totalDias` field of the summary `Map` (`parseFloat(process.dias)`;
every record fed to it has already passed `validDias`, so the default `0`
for a non-finite parse is never used). -/
def sumDias (l : List Process) : ℚ :=
  (l.map (fun p => (parseFloatJ p.dias).getD 0)).sum

/-- `getTabelasSummaryByUnidade` (`actions.ts`): filter to the unit,
drop records failing `validDias`, group the rest by `tipo_tabela` in an
insertion-ordered map accumulating count and total `dias`, then emit, per
key, the count and the ceiling of the mean. -/
def getTabelasSummaryByUnidade (l : List Process) (unidade : String) :
    List TabelaSummary :=
  let processesByUnidade := l.filter (fun p => p.unidade == unidade)
  if processesByUnidade.isEmpty then []
  else
    let validProcesses := processesByUnidade.filter validDias
    if validProcesses.isEmpty then []
    else
      (keysFirstOccur validProcesses).map (fun t =>
        let group := validProcesses.filter (fun p => p.tipo_tabela == t)
        let count := group.length
        let totalDias := sumDias group
        { tipo_tabela := t
          mediaDias := if 0 < count then ⌈totalDias / (count : ℚ)⌉ else 0
          quantidadeProcessos := count })

/-- Result of evaluating a JavaScript numeric expression: a finite number
or `NaN`. -/
inductive JNum where
  | fin (q : ℚ)
  | nan
deriving DecidableEq

/-- One step of `sum + process.dias` in `getOverallAverageDaysByUnidade`
(`actions.ts`), which adds the RAW field value with JavaScript `+`:
`null` coerces to `0`, `undefined` to `NaN`, and `NaN` is absorbing.
A string operand turns `+` into string concatenation; that branch leaves
the numeric domain and is marked out of the model (`none`) — no claim is
settled on it. -/
def jsAddDias : JNum → JVal → Option JNum
  | .fin a, .num q => some (.fin (a + q))
  | .fin a, .null => some (.fin a)
  | .fin _, .undef => some .nan
  | .fin _, .str _ => none
  | .nan, .str _ => none
  | .nan, _ => some .nan

/-- `getOverallAverageDaysByUnidade` (`actions.ts`): filter to the unit,
`reduce((sum, p) => sum + p.dias, 0)` over ALL records of the unit — with
no coercion of `dias` and no validity filter — then divide by the full
record count and apply `toFixed(2)`/`parseFloat` (`NaN` propagates to a
`NaN` result). `none` marks the out-of-model string-concatenation branch. -/
def getOverallAverageDaysByUnidade (l : List Process) (unidade : String) :
    Option JNum :=
  let processesByUnidade := l.filter (fun p => p.unidade == unidade)
  if processesByUnidade.isEmpty then some (.fin 0)
  else
    match processesByUnidade.foldl
        (fun acc p => acc.bind (fun n => jsAddDias n p.dias))
        (some (JNum.fin 0)) with
    | none => none
    | some JNum.nan => some JNum.nan
    | some (JNum.fin totalDays) =>
        some (JNum.fin (jsToFixed2 (totalDays / (processesByUnidade.length : ℚ))))

/-- Modelled from the spec's numeric coercion rule (for comparison with
the source's `getOverallAverageDaysByUnidade`): parse each `dias` as a
decimal number, keep only records whose parse is a finite number strictly
greater than zero, and average the kept values. `none` when no record of
the unit is valid. -/
def specOverallAverageDaysByUnidade (l : List Process) (unidade : String) :
    Option ℚ :=
  let valid := (l.filter (fun p => p.unidade == unidade)).filter validDias
  if valid.isEmpty then none
  else some (sumDias valid / (valid.length : ℚ))

/-- The unit/category pair filter shared by `getProcessosByUnidadeAndTabela`
and `getInvalidProcessesDetails` (`actions.ts`):
`process.unidade === unidade && process.tipo_tabela === tipoTabela`. -/
def matchingProcesses (l : List Process) (tipoTabela unidade : String) :
    List Process :=
  l.filter (fun p => p.unidade == unidade && p.tipo_tabela == tipoTabela)

/-- `getProcessosByUnidadeAndTabela` (`actions.ts`): records matching both
the unit and the category; `null` when none match. -/
def getProcessosByUnidadeAndTabela (l : List Process)
    (tipoTabela unidade : String) : Option (List Process) :=
  let filteredProcesses := matchingProcesses l tipoTabela unidade
  if 0 < filteredProcesses.length then some filteredProcesses else none

/-- The in-threshold test of `getDetailsByUnidadeAndTabela` (`actions.ts`):
`Number.isFinite(diasAsNumber) && diasAsNumber > 0 && diasAsNumber <= dias`. -/
def withinIntervalo (dias : ℚ) (p : Process) : Bool :=
  match parseFloatJ p.dias with
  | some q => decide (0 < q) && decide (q ≤ dias)
  | none => false

/-- Per category+unit+threshold details (`TabelaDetails` in `actions.ts`);
the `dias` field is the in-threshold count (the source reuses the name). -/
structure TabelaDetails where
  tipo_tabela : String
  quantidadeProcessos : ℕ
  dias : ℕ
  percentualIntervaloDias : ℚ
deriving DecidableEq

/-- `getDetailsByUnidadeAndTabela` (`actions.ts`): on the records matching
the unit/category pair, count those within `(0, dias]` after coercion and
report that count as a 2-decimal percentage of the pair's total. -/
def getDetailsByUnidadeAndTabela (l : List Process)
    (tipoTabela unidade : String) (dias : ℚ) : Option TabelaDetails :=
  match getProcessosByUnidadeAndTabela l tipoTabela unidade with
  | none => none
  | some processes =>
    if processes.length = 0 then none
    else
      let quantidadeProcessos := processes.length
      let intervaloProcessos := (processes.filter (withinIntervalo dias)).length
      let percent :=
        jsToFixed2 ((intervaloProcessos : ℚ) / (quantidadeProcessos : ℚ) * 100)
      some { tipo_tabela := tipoTabela
             quantidadeProcessos := quantidadeProcessos
             dias := intervaloProcessos
             percentualIntervaloDias := percent }

/-- The invalidity test of `getInvalidProcessesDetails` (`actions.ts`):
`isNullOrUndefined || !Number.isFinite(diasAsNumber) || diasAsNumber <= 0`. -/
def invalidDias (p : Process) : Bool :=
  isNullOrUndefined p.dias ||
    match parseFloatJ p.dias with
    | some q => decide (q ≤ 0)
    | none => true

/-- Return shape of `getInvalidProcessesDetails` (`actions.ts`). -/
structure InvalidDetails where
  tipo_tabela : String
  quantidadeProcessosInvalidos : ℕ
  totalGeralProcessos : ℕ
deriving DecidableEq

/-- `getInvalidProcessesDetails` (`actions.ts`): on the records matching
the unit/category pair, count the invalid ones and report them with the
pair's total; `null` when the pair matches no record. -/
def getInvalidProcessesDetails (l : List Process)
    (tipoTabela unidade : String) : Option InvalidDetails :=
  let processes := matchingProcesses l tipoTabela unidade
  if processes.isEmpty then none
  else
    some { tipo_tabela := tipoTabela
           quantidadeProcessosInvalidos := (processes.filter invalidDias).length
           totalGeralProcessos := processes.length }

/-- A JSON value as produced by `JSON.parse` on a cache file: an array of
process records, or some other well-formed JSON value (object, string, …)
identified by a tag. -/
inductive Json where
  | arr (l : List Process)
  | other (tag : ℕ)
deriving DecidableEq

/-- The raw bytes of a cache file, abstracted by how `JSON.parse` behaves
on them: either they parse to a JSON value or `JSON.parse` throws a
`SyntaxError` (tagged to distinguish distinct malformed contents).
Equality of `Content` values models byte-for-byte equality. -/
inductive Content where
  | wellFormed (j : Json)
  | malformed (tag : ℕ)
deriving DecidableEq

/-- `JSON.parse`: `some` the parsed value, `none` models a thrown
`SyntaxError`. -/
def jsonParse : Content → Option Json
  | .wellFormed j => some j
  | .malformed _ => none

/-- The file-system state a loader call sees: the primary (remote) and
secondary (local backup) locations (`none` = the raw read throws), whether
the backup write will fail when attempted, and whether the backup's parent
directory exists. -/
structure FsState where
  primary : Option Content
  secondary : Option Content
  writeFails : Bool
  dirExists : Bool
deriving DecidableEq

/-- Loader failure, following the spec's taxonomy: `corruptData` is the
status-500 JSON-parse failure, `invalidShape` the status-503 non-array
content, `unavailable` the failure of both reads. -/
inductive LoadError where
  | corruptData
  | invalidShape
  | unavailable
deriving DecidableEq

namespace CacheLoader

/-- `updateLocalCache` (`src/unnamed/part_001`): `fs.mkdir(dirPath,
{recursive: true})` then `fs.writeFile(CACHE_FILE_PATH, content)`, with
any error logged and swallowed. `writeFails` models the write throwing
(the recursive `mkdir` itself is assumed to succeed). -/
def updateLocalCache (content : Content) (s : FsState) : FsState :=
  if s.writeFails then { s with dirExists := true }
  else { s with dirExists := true, secondary := some content }

/-- The parse-and-validate tail of `getProcessCache`
(`src/unnamed/part_001`): `JSON.parse` failure throws the status-500
corrupt-data error; a parsed non-array throws the status-503 error;
an array is returned. -/
def parseStep (c : Content) : Except LoadError (List Process) :=
  match jsonParse c with
  | none => .error .corruptData
  | some (.arr l) => .ok l
  | some (.other _) => .error .invalidShape

/-- `getProcessCache` (`src/unnamed/part_001`, first variant): read the
primary; on success run `updateLocalCache` with the exact bytes read, then
parse them; on primary failure read the secondary and parse that; if both
raw reads fail, throw (`unavailable`). Returns the result paired with the
file-system state after the call. -/
def getProcessCache (s : FsState) :
    Except LoadError (List Process) × FsState :=
  match s.primary with
  | some c => (parseStep c, updateLocalCache c s)
  | none =>
    match s.secondary with
    | some c => (parseStep c, s)
    | none => (.error .unavailable, s)

end CacheLoader

namespace ProcessoRoute

/-- The catch block of `getProcessCache` (`src/app/api/processo/route.ts`):
read the backup and `JSON.parse` it; if either fails, throw
`"Sistema indisponível"` (modelled `unavailable`). -/
def fallback (s : FsState) : Except LoadError Json × FsState :=
  match s.secondary with
  | some c =>
    match jsonParse c with
    | some j => (.ok j, s)
    | none => (.error .unavailable, s)
  | none => (.error .unavailable, s)

/-- `getProcessCache` (`src/app/api/processo/route.ts`): inside one `try`,
read the primary, `fs.writeFile` the bytes to the backup (no `mkdir`), and
return `JSON.parse` of them; ANY throw in that block — read failure, write
failure, or a `SyntaxError` from the parse — lands in the catch, which
falls back to reading and parsing the backup. -/
def getProcessCache (s : FsState) : Except LoadError Json × FsState :=
  match s.primary with
  | some c =>
    if s.writeFails then fallback s
    else
      let s' := { s with secondary := some c }
      match jsonParse c with
      | some j => (.ok j, s')
      | none => fallback s'
  | none => fallback s

end ProcessoRoute

example :
    getTabelasSummaryByUnidade
      [⟨"a", "U", "T", .num 1, .num 1⟩, ⟨"b", "U", "T", .num 2, .num 2⟩] "U" =
      [⟨"T", 2, 2⟩] := by
  norm_num [getTabelasSummaryByUnidade, keysFirstOccur, sumDias, validDias,
    parseFloatJ, List.filter, Int.ceil_eq_iff]

example : jsToFixed2 ((1 : ℚ) / 3 * 100) = 3333 / 100 := by
  norm_num [jsToFixed2, Int.floor_eq_iff]

/-- Modelled from the spec's words "rounded to 2 decimal places"
(`round((inThreshold/total)*100, 2)`): round to hundredths, ties up. -/
def specRound2 (x : ℚ) : ℚ :=
  (⌊x * 100 + 1 / 2⌋ : ℚ) / 100

/-- The records a summary entry for category `t` aggregates: the unit's
records that pass `validDias` and carry `tipo_tabela = t`. -/
def summaryGroup (l : List Process) (unidade t : String) : List Process :=
  ((l.filter (fun p => p.unidade == unidade)).filter validDias).filter
    (fun p => p.tipo_tabela == t)

/-- Example list for the summary claims: valid `dias` values `[1, 2]`. -/
def exPair : List Process :=
  [⟨"a", "U", "T", .num 1, .num 1⟩, ⟨"b", "U", "T", .num 2, .num 2⟩]

/-- Example list for the details claims: of three matching records, one has
`dias` within `(0, 5]`. -/
def exThree : List Process :=
  [⟨"a", "U", "T", .num 1, .num 1⟩, ⟨"b", "U", "T", .num 10, .num 1⟩,
   ⟨"c", "U", "T", .num 20, .num 1⟩]

/-- The spec's invalid-count example: matching records with `dias` equal to
`null`, `"abc"`, `-1`, and `5`. -/
def exInvalid : List Process :=
  [⟨"a", "U", "T", .null, .num 1⟩, ⟨"b", "U", "T", .str ⟨"abc", none⟩, .num 1⟩,
   ⟨"c", "U", "T", .num (-1), .num 1⟩, ⟨"d", "U", "T", .num 5, .num 1⟩]

/-- Example list for the overall-average claim: the unit's records carry
`dias = 1` (valid) and `dias = -1` (invalid under the coercion rule). -/
def exOverall : List Process :=
  [⟨"a", "U", "T", .num 1, .num 1⟩, ⟨"b", "U", "T", .num (-1), .num 2⟩]

/-! ### Helper lemmas -/

/-- A key emitted by the grouping fold is the `tipo_tabela` of some record
of the list it folded over. -/
lemma exists_of_mem_keysFirstOccur {l : List Process} {t : String}
    (h : t ∈ keysFirstOccur l) : ∃ p ∈ l, p.tipo_tabela = t := by
  suffices H : ∀ ks : List String,
      t ∈ l.foldl (fun ks p => if p.tipo_tabela ∈ ks then ks else ks ++ [p.tipo_tabela]) ks →
      t ∈ ks ∨ ∃ p ∈ l, p.tipo_tabela = t by
    rcases H [] h with h' | h'
    · cases h'
    · exact h'
  clear h
  induction l with
  | nil => intro ks h; exact Or.inl h
  | cons a l ih =>
    intro ks h
    rcases ih _ h with h' | h'
    · change t ∈ if a.tipo_tabela ∈ ks then ks else ks ++ [a.tipo_tabela] at h'
      by_cases ha : a.tipo_tabela ∈ ks
      · rw [if_pos ha] at h'
        exact Or.inl h'
      · rw [if_neg ha, List.mem_append] at h'
        rcases h' with h' | h'
        · exact Or.inl h'
        · exact Or.inr ⟨a, List.mem_cons_self a l, (List.mem_singleton.mp h').symm⟩
    · rcases h' with ⟨p, hp, hpt⟩
      exact Or.inr ⟨p, List.mem_cons_of_mem a hp, hpt⟩

/-- A record passing `validDias` has a finite, strictly positive coerced
`dias`. -/
lemma validDias_spec {p : Process} (h : validDias p = true) :
    ∃ q, parseFloatJ p.dias = some q ∧ 0 < q := by
  unfold validDias at h
  cases hq : parseFloatJ p.dias with
  | none => rw [hq] at h; cases h
  | some q => rw [hq] at h; exact ⟨q, rfl, by simpa using h⟩

/-- `q ≤ 0` decides to the negation of `0 < q`. -/
lemma decide_nonpos_eq (q : ℚ) : decide (q ≤ 0) = !decide (0 < q) := by
  rcases le_or_lt q 0 with h | h
  · rw [decide_eq_true h, decide_eq_false (not_lt.mpr h)]
    rfl
  · rw [decide_eq_false (not_le.mpr h), decide_eq_true h]
    rfl

/-- The invalidity test of `getInvalidProcessesDetails` is the pointwise
negation of the validity test of `getTabelasSummaryByUnidade`. -/
lemma invalidDias_eq_not_validDias (p : Process) :
    invalidDias p = !validDias p := by
  unfold invalidDias validDias
  cases hd : p.dias with
  | num q => simp [parseFloatJ, isNullOrUndefined, decide_nonpos_eq]
  | str s =>
    cases hs : s.pf with
    | none => simp [parseFloatJ, isNullOrUndefined, hs]
    | some q => simp [parseFloatJ, isNullOrUndefined, hs, decide_nonpos_eq]
  | null => simp [parseFloatJ, isNullOrUndefined]
  | undef => simp [parseFloatJ, isNullOrUndefined]

/-- No record passes the in-threshold test at threshold `0`. -/
lemma withinIntervalo_zero (p : Process) : withinIntervalo 0 p = false := by
  unfold withinIntervalo
  cases hq : parseFloatJ p.dias with
  | none => rfl
  | some q =>
    simp only [Bool.and_eq_false_iff, decide_eq_false_iff_not, not_lt, not_le]
    by_cases h : 0 < q
    · exact Or.inr h
    · exact Or.inl (not_lt.mp h)

/-! ### C5 — find-by-number on a record's own `processo` value -/

/-- C5 counterexample: with two distinct records sharing the same
`processo` value, `getProcessByNumber` on the second record's own value
returns the first record, not the second — the claim's universally
quantified "returns that record" fails. -/
theorem c5_counterexample :
    getProcessByNumber
        [⟨"0001.000001/2024-01", "U", "T", .num 1, .num 1⟩,
         ⟨"0001.000001/2024-01", "U", "T", .num 2, .num 2⟩]
        "0001.000001/2024-01" ≠
      some ⟨"0001.000001/2024-01", "U", "T", .num 2, .num 2⟩ := by
  simp [getProcessByNumber, List.find?]

/-- C5 (amended): `getProcessByNumber` scans linearly for the first record
whose `processo` equals the queried value; when the record is the only one
in the list carrying its `processo` value, the scan returns that record. -/
theorem c5_theorem (l : List Process) (r : Process) (hr : r ∈ l)
    (huniq : ∀ r' ∈ l, r'.processo = r.processo → r' = r) :
    getProcessByNumber l r.processo = some r := by
  induction l with
  | nil => cases hr
  | cons a l ih =>
    unfold getProcessByNumber
    by_cases ha : a.processo = r.processo
    · have : a = r := huniq a (List.mem_cons_self a l) ha
      simp [List.find?, ha, this]
    · have hne : (a.processo == r.processo) = false := by
        simpa using ha
      rw [List.find?_cons, hne]
      rcases List.mem_cons.mp hr with h | h
      · exact absurd (h ▸ rfl) ha
      · exact ih h fun x hx => huniq x (List.mem_cons_of_mem a hx)

/-- C5 witness. -/
theorem c5_witness :
    getProcessByNumber [⟨"0002.000002/2024-02", "U", "T", .num 3, .num 1⟩]
        "0002.000002/2024-02" =
      some ⟨"0002.000002/2024-02", "U", "T", .num 3, .num 1⟩ :=
  c5_theorem _ _ (List.mem_singleton.mpr rfl)
    (fun _ hx _ => List.mem_singleton.mp hx)

/-! ### C7 — details at threshold zero -/

/-- C7: any non-not-found result of `getDetailsByUnidadeAndTabela` at
threshold `0` reports an in-threshold count (its `dias` field) of `0`,
because the in-threshold test requires `0 < dias ≤ 0`. -/
theorem c7_theorem (l : List Process) (tipoTabela unidade : String)
    (d : TabelaDetails)
    (h : getDetailsByUnidadeAndTabela l tipoTabela unidade 0 = some d) :
    d.dias = 0 := by
  unfold getDetailsByUnidadeAndTabela at h
  cases hm : getProcessosByUnidadeAndTabela l tipoTabela unidade with
  | none =>
    rw [hm] at h
    dsimp only at h
    cases h
  | some processes =>
    rw [hm] at h
    dsimp only at h
    by_cases hl : processes.length = 0
    · rw [if_pos hl] at h
      cases h
    · rw [if_neg hl] at h
      have hfil : processes.filter (withinIntervalo 0) = [] :=
        List.filter_eq_nil_iff.mpr fun p _ => by
          simp [withinIntervalo_zero p]
      simp only [Option.some.injEq] at h
      subst h
      simp [hfil]

/-- C7 witness. -/
theorem c7_witness : (⟨"T", 1, 0, 0⟩ : TabelaDetails).dias = 0 := by
  have h : getDetailsByUnidadeAndTabela
      [⟨"a", "U", "T", .num 5, .num 1⟩] "T" "U" 0 = some ⟨"T", 1, 0, 0⟩ := by
    norm_num [getDetailsByUnidadeAndTabela, getProcessosByUnidadeAndTabela,
      matchingProcesses, withinIntervalo, parseFloatJ, jsToFixed2, List.filter,
      Int.floor_eq_iff]
  exact c7_theorem _ "T" "U" _ h

/-! ### C8 — the reported percentage -/

/-- C8: in every non-not-found result of `getDetailsByUnidadeAndTabela`,
the reported percentage equals the in-threshold count over the pair's
total, times 100, rounded to 2 decimal places. -/
theorem c8_theorem (l : List Process) (tipoTabela unidade : String)
    (dias : ℚ) (d : TabelaDetails)
    (h : getDetailsByUnidadeAndTabela l tipoTabela unidade dias = some d) :
    d.percentualIntervaloDias =
      specRound2
        ((((matchingProcesses l tipoTabela unidade).filter
            (withinIntervalo dias)).length : ℚ) /
          ((matchingProcesses l tipoTabela unidade).length : ℚ) * 100) := by
  unfold getDetailsByUnidadeAndTabela getProcessosByUnidadeAndTabela at h
  dsimp only at h
  by_cases hl : 0 < (matchingProcesses l tipoTabela unidade).length
  · rw [if_pos hl] at h
    dsimp only at h
    rw [if_neg (Nat.pos_iff_ne_zero.mp hl)] at h
    simp only [Option.some.injEq] at h
    subst h
    rfl
  · rw [if_neg hl] at h
    dsimp only at h
    cases h

/-- C8 witness: 1 in-threshold record of 3 total reports `33.33`. -/
theorem c8_witness :
    getDetailsByUnidadeAndTabela exThree "T" "U" 5 =
        some ⟨"T", 3, 1, 3333 / 100⟩ ∧
      (⟨"T", 3, 1, 3333 / 100⟩ : TabelaDetails).percentualIntervaloDias =
        specRound2
          ((((matchingProcesses exThree "T" "U").filter
              (withinIntervalo 5)).length : ℚ) /
            ((matchingProcesses exThree "T" "U").length : ℚ) * 100) := by
  have h : getDetailsByUnidadeAndTabela exThree "T" "U" 5 =
      some ⟨"T", 3, 1, 3333 / 100⟩ := by
    norm_num [getDetailsByUnidadeAndTabela, getProcessosByUnidadeAndTabela,
      matchingProcesses, exThree, withinIntervalo, parseFloatJ, jsToFixed2,
      List.filter, Int.floor_eq_iff]
  exact ⟨h, c8_theorem exThree "T" "U" 5 _ h⟩

/-! ### C9 — invalid-count query -/

/-- C9: `getInvalidProcessesDetails` returns a not-found indication exactly
when the unit/category pair matches no record, and otherwise returns the
count of matching records failing the coercion rule (`dias` null,
undefined, non-finite after coercion, or at most 0) together with the
pair's total record count. -/
theorem c9_theorem (l : List Process) (tipoTabela unidade : String) :
    (matchingProcesses l tipoTabela unidade = [] →
      getInvalidProcessesDetails l tipoTabela unidade = none) ∧
    (matchingProcesses l tipoTabela unidade ≠ [] →
      getInvalidProcessesDetails l tipoTabela unidade =
        some ⟨tipoTabela,
          ((matchingProcesses l tipoTabela unidade).filter invalidDias).length,
          (matchingProcesses l tipoTabela unidade).length⟩) := by
  constructor
  · intro h
    unfold getInvalidProcessesDetails
    dsimp only
    rw [if_pos (by simp [h])]
  · intro h
    unfold getInvalidProcessesDetails
    dsimp only
    rw [if_neg (by simp [h])]

/-- C9 witness: on matching records with `dias` values `null`, `"abc"`,
`-1`, `5`, the result is invalid `3` of total `4`. -/
theorem c9_witness :
    getInvalidProcessesDetails exInvalid "T" "U" = some ⟨"T", 3, 4⟩ := by
  have hfil : matchingProcesses exInvalid "T" "U" = exInvalid := by
    norm_num [matchingProcesses, exInvalid, List.filter]
  have h := (c9_theorem exInvalid "T" "U").2
    (by rw [hfil]; unfold exInvalid; exact List.cons_ne_nil _ _)
  rw [h]
  norm_num [matchingProcesses, exInvalid, invalidDias, isNullOrUndefined,
    parseFloatJ, List.filter]

/-! ### C10 — invalid and valid counts are complements -/

/-- C10: in every non-not-found result of `getInvalidProcessesDetails`,
the invalid count plus the number of matching records passing the
summary's validity test equals the pair's total record count: the two
validity tests are exact complements. -/
theorem c10_theorem (l : List Process) (tipoTabela unidade : String)
    (r : InvalidDetails)
    (h : getInvalidProcessesDetails l tipoTabela unidade = some r) :
    r.quantidadeProcessosInvalidos +
        ((matchingProcesses l tipoTabela unidade).filter validDias).length =
      r.totalGeralProcessos := by
  unfold getInvalidProcessesDetails at h
  dsimp only at h
  by_cases he : (matchingProcesses l tipoTabela unidade).isEmpty
  · rw [if_pos he] at h
    cases h
  · rw [if_neg he] at h
    simp only [Option.some.injEq] at h
    subst h
    have hcong : (matchingProcesses l tipoTabela unidade).filter invalidDias =
        (matchingProcesses l tipoTabela unidade).filter
          (fun p => !(validDias p)) :=
      List.filter_congr fun p _ => invalidDias_eq_not_validDias p
    dsimp only
    rw [hcong, Nat.add_comm]
    exact (List.length_eq_length_filter_add validDias).symm

/-- C10 witness. -/
theorem c10_witness :
    (⟨"T", 3, 4⟩ : InvalidDetails).quantidadeProcessosInvalidos +
        ((matchingProcesses exInvalid "T" "U").filter validDias).length =
      (⟨"T", 3, 4⟩ : InvalidDetails).totalGeralProcessos := by
  have h : getInvalidProcessesDetails exInvalid "T" "U" = some ⟨"T", 3, 4⟩ := by
    norm_num [getInvalidProcessesDetails, matchingProcesses, exInvalid,
      invalidDias, isNullOrUndefined, parseFloatJ, List.filter]
  exact c10_theorem exInvalid "T" "U" _ h

/-! ### C6 — per-unit summary: validity filter and ceiling mean -/

/-- C6: every entry of `getTabelasSummaryByUnidade` aggregates exactly the
unit's records that pass the validity test and carry the entry's category:
the group is non-empty, the entry counts it, the entry's mean is the
ceiling of the group's mean `dias`, and every aggregated record has a
finite coerced `dias` strictly greater than zero (so no non-numeric,
non-finite, or non-positive record is included in any group). -/
theorem c6_theorem (l : List Process) (unidade : String) (e : TabelaSummary)
    (he : e ∈ getTabelasSummaryByUnidade l unidade) :
    summaryGroup l unidade e.tipo_tabela ≠ [] ∧
    e.quantidadeProcessos = (summaryGroup l unidade e.tipo_tabela).length ∧
    e.mediaDias = ⌈sumDias (summaryGroup l unidade e.tipo_tabela) /
      ((summaryGroup l unidade e.tipo_tabela).length : ℚ)⌉ ∧
    ∀ p ∈ summaryGroup l unidade e.tipo_tabela,
      ∃ q, parseFloatJ p.dias = some q ∧ 0 < q := by
  unfold getTabelasSummaryByUnidade at he
  dsimp only at he
  by_cases h1 : (l.filter (fun p => p.unidade == unidade)).isEmpty
  · rw [if_pos h1] at he
    cases he
  · rw [if_neg h1] at he
    by_cases h2 :
        ((l.filter (fun p => p.unidade == unidade)).filter validDias).isEmpty
    · rw [if_pos h2] at he
      cases he
    · rw [if_neg h2] at he
      obtain ⟨t, ht, hfe⟩ := List.mem_map.mp he
      subst hfe
      dsimp only
      obtain ⟨p0, hp0, hp0t⟩ := exists_of_mem_keysFirstOccur ht
      have hmem : p0 ∈ summaryGroup l unidade t :=
        List.mem_filter.mpr ⟨hp0, by simp [hp0t]⟩
      have hne : summaryGroup l unidade t ≠ [] := List.ne_nil_of_mem hmem
      have hglen : 0 < (summaryGroup l unidade t).length :=
        List.length_pos.mpr hne
      refine ⟨hne, rfl, ?_, ?_⟩
      · show (if 0 < (summaryGroup l unidade t).length then
            ⌈sumDias (summaryGroup l unidade t) /
              ((summaryGroup l unidade t).length : ℚ)⌉
          else 0) =
          ⌈sumDias (summaryGroup l unidade t) /
            ((summaryGroup l unidade t).length : ℚ)⌉
        rw [if_pos hglen]
      · intro p hp
        exact validDias_spec (List.mem_filter.mp
          (List.mem_filter.mp hp).1).2

/-- C6 witness: valid days `[1, 2]` give one group, count `2`, mean `1.5`
reported as the ceiling `2`. -/
theorem c6_witness :
    getTabelasSummaryByUnidade exPair "U" = [⟨"T", 2, 2⟩] ∧
    (⟨"T", 2, 2⟩ : TabelaSummary).mediaDias =
      ⌈sumDias (summaryGroup exPair "U" "T") /
        ((summaryGroup exPair "U" "T").length : ℚ)⌉ := by
  have hm : getTabelasSummaryByUnidade exPair "U" = [⟨"T", 2, 2⟩] := by
    norm_num [getTabelasSummaryByUnidade, exPair, keysFirstOccur, sumDias,
      validDias, parseFloatJ, List.filter, Int.ceil_eq_iff]
  refine ⟨hm, ?_⟩
  exact (c6_theorem exPair "U" ⟨"T", 2, 2⟩
    (by rw [hm]; exact List.mem_singleton.mpr rfl)).2.2.1

/-! ### C2 — the overall average skips the coercion rule -/

/-- C2: `getOverallAverageDaysByUnidade` does NOT apply the numeric
coercion/validity rule: on a unit whose records carry `dias = 1` (valid)
and `dias = -1` (invalid under the rule), the source sums the raw values
over ALL records and returns `0`, while the rule-following average over
valid records is `1`. -/
theorem c2_theorem :
    getOverallAverageDaysByUnidade exOverall "U" = some (JNum.fin 0) ∧
    specOverallAverageDaysByUnidade exOverall "U" = some 1 ∧
    (JNum.fin 0 : JNum) ≠ JNum.fin 1 := by
  refine ⟨?_, ?_, by simp⟩
  · norm_num [getOverallAverageDaysByUnidade, exOverall, jsAddDias,
      jsToFixed2, List.filter, List.foldl, Int.floor_eq_iff]
  · norm_num [specOverallAverageDaysByUnidade, exOverall, validDias,
      parseFloatJ, sumDias, List.filter]

/-! ### C1 — corrupt primary content is fatal, without fallback -/

/-- C1 (amended, `part_001` loader): whenever the primary raw read
succeeds but its content fails to parse as JSON, the loader fails with
`CorruptData` — for every secondary state, so it never falls back to
reading the secondary location. -/
theorem c1_theorem (s : FsState) (tag : ℕ)
    (h : s.primary = some (Content.malformed tag)) :
    (CacheLoader.getProcessCache s).1 = Except.error LoadError.corruptData := by
  obtain ⟨prim, sec, wf, dirE⟩ := s
  dsimp only at h
  subst h
  rfl

/-- C1 witness: corrupt primary, perfectly readable secondary — still
`CorruptData`. -/
theorem c1_witness :
    (CacheLoader.getProcessCache
        ⟨some (Content.malformed 0), some (Content.wellFormed (Json.arr [])),
          false, true⟩).1 = Except.error LoadError.corruptData :=
  c1_theorem _ 0 rfl

/-- C1 counterexample (`route.ts` loader): primary raw read succeeds with
unparseable content (and the backup write fails), yet the loader silently
falls back to reading the secondary and returns its parsed content instead
of failing with `CorruptData`. -/
theorem c1_counterexample :
    (ProcessoRoute.getProcessCache
        ⟨some (Content.malformed 0), some (Content.wellFormed (Json.arr [])),
          true, true⟩).1 = Except.ok (Json.arr []) ∧
    (ProcessoRoute.getProcessCache
        ⟨some (Content.malformed 0), some (Content.wellFormed (Json.arr [])),
          true, true⟩).1 ≠ Except.error LoadError.corruptData :=
  ⟨rfl, fun hc => Except.noConfusion hc⟩

/-! ### C3 — opportunistic backup write, failure swallowed -/

/-- C3 (amended, `part_001` loader): on primary success the loader creates
the backup's parent directory and, when the write does not fail, the
secondary afterwards holds the exact bytes read from the primary; a write
failure never changes the returned value, which is the parse outcome of
the primary's content — in particular the parsed array when the content
parses as one. -/
theorem c3_theorem (s : FsState) (c : Content) (h : s.primary = some c) :
    (CacheLoader.getProcessCache s).2.dirExists = true ∧
    (s.writeFails = false →
      (CacheLoader.getProcessCache s).2.secondary = some c) ∧
    (CacheLoader.getProcessCache s).1 = CacheLoader.parseStep c ∧
    ∀ l, c = Content.wellFormed (Json.arr l) →
      (CacheLoader.getProcessCache s).1 = Except.ok l := by
  obtain ⟨prim, sec, wf, dirE⟩ := s
  dsimp only at h
  subst h
  cases wf with
  | false => exact ⟨rfl, fun _ => rfl, rfl, fun l hc => by subst hc; rfl⟩
  | true =>
    exact ⟨rfl, fun hfalse => Bool.noConfusion hfalse, rfl,
      fun l hc => by subst hc; rfl⟩

/-- C3 witness. -/
theorem c3_witness :
    (CacheLoader.getProcessCache
        ⟨some (Content.wellFormed (Json.arr [])), none, false, false⟩).2.dirExists
        = true ∧
    ((⟨some (Content.wellFormed (Json.arr [])), none, false, false⟩ :
        FsState).writeFails = false →
      (CacheLoader.getProcessCache
          ⟨some (Content.wellFormed (Json.arr [])), none, false,
            false⟩).2.secondary = some (Content.wellFormed (Json.arr []))) ∧
    (CacheLoader.getProcessCache
        ⟨some (Content.wellFormed (Json.arr [])), none, false, false⟩).1 =
      CacheLoader.parseStep (Content.wellFormed (Json.arr [])) ∧
    ∀ l, Content.wellFormed (Json.arr []) = Content.wellFormed (Json.arr l) →
      (CacheLoader.getProcessCache
          ⟨some (Content.wellFormed (Json.arr [])), none, false, false⟩).1 =
        Except.ok l :=
  c3_theorem _ _ rfl

/-- C3 counterexample (`route.ts` loader): the primary read succeeds with
content that parses as a record array, but the backup write fails (there
is no `mkdir` and the backup is unreadable), and the loader propagates an
error to the caller instead of returning the primary's parsed content. -/
theorem c3_counterexample :
    (ProcessoRoute.getProcessCache
        ⟨some (Content.wellFormed (Json.arr [])), none, true, true⟩).1 =
      Except.error LoadError.unavailable ∧
    (ProcessoRoute.getProcessCache
        ⟨some (Content.wellFormed (Json.arr [])), none, true, true⟩).1 ≠
      Except.ok (Json.arr []) :=
  ⟨rfl, fun hc => Except.noConfusion hc⟩

/-! ### C4 — failover to the secondary -/

/-- C4: for both loaders, when the primary read fails and the secondary
read succeeds with content parsing as a record array, the result is the
secondary's parsed content and no exception propagates to the caller. -/
theorem c4_theorem (s : FsState) (l : List Process) (h1 : s.primary = none)
    (h2 : s.secondary = some (Content.wellFormed (Json.arr l))) :
    (CacheLoader.getProcessCache s).1 = Except.ok l ∧
    (ProcessoRoute.getProcessCache s).1 = Except.ok (Json.arr l) := by
  obtain ⟨prim, sec, wf, dirE⟩ := s
  dsimp only at h1 h2
  subst h1
  subst h2
  exact ⟨rfl, rfl⟩

/-- C4 witness. -/
theorem c4_witness :
    (CacheLoader.getProcessCache
        ⟨none, some (Content.wellFormed (Json.arr [])), false, true⟩).1 =
      Except.ok ([] : List Process) ∧
    (ProcessoRoute.getProcessCache
        ⟨none, some (Content.wellFormed (Json.arr [])), false, true⟩).1 =
      Except.ok (Json.arr []) :=
  c4_theorem _ [] rfl rfl
